import Mathlib

/-!
Shallow embedding of `src/scrape.js` from the SkyrimBooks repository: a scraper
that extracts (title, locations) records for books from three wiki listing
pages and prints them as one JSON array.

The external collaborators (axios fetch, cheerio parse) are modelled by the
shapes of the data they deliver to the core logic:

* an item page, as `getBook` reads it, is the raw text of
  `span.mw-page-title-main` together with the chain of sibling elements that
  follows the first `h2` of `div.mw-parser-output`;
* an element exposes the raw texts of its direct `li` children and the raw
  text of the whole element (an empty cheerio selection exposes no `li`
  children and empty text);
* a listing (seed) page exposes its `ol` shelves (each `li`'s anchor hrefs)
  and the hrefs of the anchors inside its `table.article-table` tables.

Unbounded retry loops are run on fuel: `none` means the recursion did not
finish within the given fuel, `some r` means the code returned `r`.
Re-fetching is modelled by an attempt-indexed stream of fetch results.
-/

/-- The wiki homepage prepended to every accepted href (`HOMEPAGE` in the source). -/
def HOMEPAGE : String := "https://legacy-of-the-dragonborn.fandom.com"

/-- JavaScript's `String.prototype.trim`: strip whitespace from both ends.
Defined over the character list so that it evaluates by kernel reduction. -/
def jsTrim (s : String) : String :=
  String.mk (((s.toList.dropWhile Char.isWhitespace).reverse.dropWhile
    Char.isWhitespace).reverse)

/-- The `Book` class of the source: a title and the list of locations. -/
structure Book where
  title : String
  locations : List String
deriving DecidableEq

/-- A DOM element as the extraction rule reads it: the raw texts of its direct
`li` children (in document order) and the raw text of the whole element. -/
structure Element where
  liTexts : List String
  text : String
deriving DecidableEq

/-- A book item page as `getBook` reads it: the raw title text and the chain
of siblings following the first `h2` of the parser output. -/
structure ItemPage where
  rawTitle : String
  siblings : List Element
deriving DecidableEq

/-- The reading `getBook` performs on an empty cheerio selection (a missing
sibling): no `li` children, empty text. -/
def emptyElement : Element := { liTexts := [], text := "" }

/-- The acquisition block selected by `getBook`: the sibling right after the
first `h2`, or one further when the trimmed title is "Treasure Map XXI". -/
def acquisitionOf (p : ItemPage) : Element :=
  let title := jsTrim p.rawTitle
  if title == "Treasure Map XXI" then (p.siblings[1]?).getD emptyElement
  else (p.siblings[0]?).getD emptyElement

/-- The locations `getBook` computes from the acquisition block: the trimmed
texts of its `li` children, or, when there are none, the singleton of the
trimmed text of the whole block. -/
def locationsOf (acq : Element) : List String :=
  let locations := acq.liTexts.map jsTrim
  if locations.length == 0 then [jsTrim acq.text] else locations

/-- One successfully-fetched attempt of `getBook`: `none` when the validity
check `title == "" || locations.length == 0` fails (the source then recurses),
`some b` when the Book is returned. -/
def getBookAttempt (p : ItemPage) : Option Book :=
  let title := jsTrim p.rawTitle
  let locations := locationsOf (acquisitionOf p)
  if title == "" || locations.length == 0 then none
  else some { title := title, locations := locations }

/-- Result of one `axios.get` + `cheerio.load` round: the promise rejects
(`err`) or resolves to a parsed page (`ok`). -/
inductive FetchResult where
  | err
  | ok (page : ItemPage)
deriving DecidableEq

/-- How a `getBook` call can end: the fetch rejection propagates out of the
function (`raised`, no try/catch in the source), or a Book is returned. -/
inductive BookOutcome where
  | raised
  | returned (b : Book)
deriving DecidableEq

/-- The `getBook` retry loop, run on fuel over an attempt-indexed stream of
fetch results. `none`: the recursion did not finish within the fuel. -/
def getBook (attempts : Nat → FetchResult) : Nat → Option BookOutcome
  | 0 => none
  | fuel + 1 =>
    match attempts 0 with
    | .err => some .raised
    | .ok p =>
      match getBookAttempt p with
      | some b => some (.returned b)
      | none => getBook (fun n => attempts (n + 1)) fuel

/-- Whether `pat` occurs as a contiguous run of characters in `l`
(JavaScript's `String.prototype.includes`, on character lists). -/
def listIncludes (pat : List Char) : List Char → Bool
  | [] => pat.isEmpty
  | c :: rest => pat.isPrefixOf (c :: rest) || listIncludes pat rest

/-- JavaScript's `s.includes(pat)`: substring containment. -/
def strIncludes (s pat : String) : Bool := listIncludes pat.toList s.toList

/-- JavaScript's `s.startsWith(pat)`. Defined over the character lists so
that it evaluates by kernel reduction. -/
def strStartsWith (s pat : String) : Bool := pat.toList.isPrefixOf s.toList

/-- The href filter shared by `getBookshelf`, `getFirstFloor` and
`getSecondFloor`: the href starts with "/wiki/" and contains no ".". -/
def acceptHref (href : String) : Bool :=
  strStartsWith href "/wiki/" && !(strIncludes href ".")

/-- The href filter of `getThirdFloor`: the shared filter plus the exclusion
of hrefs containing "/wiki/Treasure_Hunter". -/
def acceptHrefThird (href : String) : Bool :=
  strStartsWith href "/wiki/" && !(strIncludes href ".")
    && !(strIncludes href "/wiki/Treasure_Hunter")

/-- The hrefs accepted from one `ol` shelf by `getBookshelf`: for each `li`
child in order, for each of its `a` children in order, keep the href when the
filter passes. A shelf is given as the href lists of its `li` children. -/
def getBookshelfLinks (ol : List (List String)) : List String :=
  (ol.map (fun li => li.filter acceptHref)).flatten

/-- The hrefs accepted from the `table.article-table a` anchors by
`getFirstFloor` and `getSecondFloor` (cheerio `map` drops the `undefined`
produced for rejected anchors). -/
def tableLinks (anchors : List String) : List String :=
  anchors.filter acceptHref

/-- The hrefs accepted from the `table.article-table a` anchors by
`getThirdFloor`. -/
def thirdFloorTableLinks (anchors : List String) : List String :=
  anchors.filter acceptHrefThird

/-- A listing (seed) page as the floor crawlers read it: the
`div.mw-parser-output > ol` shelves in order (each `li`'s anchor hrefs) and
the hrefs of all `table.article-table a` anchors in document order. -/
structure SeedPage where
  shelves : List (List (List String))
  tableAnchors : List String
deriving DecidableEq

/-- The Books of one shelf: `getBook(HOMEPAGE + href)` for each accepted href,
in order. `getB` abstracts the `getBook` contract (url to Book). -/
def getBookshelf (getB : String → Book) (ol : List (List String)) : List Book :=
  (getBookshelfLinks ol).map (fun href => getB (HOMEPAGE ++ href))

/-- One attempt of `getFirstFloor` on a fetched seed page: Books of the first
8 shelves flattened, then Books of the accepted table anchors. -/
def firstFloorBooks (getB : String → Book) (seed : SeedPage) : List Book :=
  ((seed.shelves.take 8).map (getBookshelf getB)).flatten
    ++ (tableLinks seed.tableAnchors).map (fun href => getB (HOMEPAGE ++ href))

/-- One attempt of `getSecondFloor` on a fetched seed page. -/
def secondFloorBooks (getB : String → Book) (seed : SeedPage) : List Book :=
  (tableLinks seed.tableAnchors).map (fun href => getB (HOMEPAGE ++ href))

/-- One attempt of `getThirdFloor` on a fetched seed page. -/
def thirdFloorBooks (getB : String → Book) (seed : SeedPage) : List Book :=
  (thirdFloorTableLinks seed.tableAnchors).map (fun href => getB (HOMEPAGE ++ href))

/-- The retry skeleton shared by the three floor crawlers: compute the Books
for the current fetch of the seed page; if the list is empty, refetch and
start over, otherwise return it. Run on fuel over attempt-indexed results. -/
def floorRun (attemptBooks : Nat → List Book) : Nat → Option (List Book)
  | 0 => none
  | fuel + 1 =>
    let books := attemptBooks 0
    if books.length == 0 then floorRun (fun n => attemptBooks (n + 1)) fuel
    else some books

/-- `getFirstFloor`: fetch the first-floor seed page (attempt-indexed) and run
the retry skeleton over its per-attempt Books. -/
def getFirstFloor (getB : String → Book) (seeds : Nat → SeedPage) (fuel : Nat) :
    Option (List Book) :=
  floorRun (fun n => firstFloorBooks getB (seeds n)) fuel

/-- `getSecondFloor` on attempt-indexed fetches of its seed page. -/
def getSecondFloor (getB : String → Book) (seeds : Nat → SeedPage) (fuel : Nat) :
    Option (List Book) :=
  floorRun (fun n => secondFloorBooks getB (seeds n)) fuel

/-- `getThirdFloor` on attempt-indexed fetches of its seed page. -/
def getThirdFloor (getB : String → Book) (seeds : Nat → SeedPage) (fuel : Nat) :
    Option (List Book) :=
  floorRun (fun n => thirdFloorBooks getB (seeds n)) fuel

/-- The `main` driver: run the three crawlers one after the other and
concatenate first floor, second floor, third floor in that order. `none` when
some crawler did not finish within its fuel. -/
def mainBooks (getB : String → Book) (s1 s2 s3 : Nat → SeedPage) (fuel : Nat) :
    Option (List Book) :=
  match getFirstFloor getB s1 fuel with
  | none => none
  | some firstFloor =>
    match getSecondFloor getB s2 fuel with
    | none => none
    | some secondFloor =>
      match getThirdFloor getB s3 fuel with
      | none => none
      | some thirdFloor => some (firstFloor ++ secondFloor ++ thirdFloor)

/-- All accepted links of one first-floor attempt, in discovery order:
shelves (at most 8, top to bottom) first, then the table. -/
def firstFloorLinks (seed : SeedPage) : List String :=
  ((seed.shelves.take 8).map getBookshelfLinks).flatten
    ++ tableLinks seed.tableAnchors

/-- All accepted links of one second-floor attempt. -/
def secondFloorLinks (seed : SeedPage) : List String :=
  tableLinks seed.tableAnchors

/-- All accepted links of one third-floor attempt. -/
def thirdFloorLinks (seed : SeedPage) : List String :=
  thirdFloorTableLinks seed.tableAnchors

/-! ## Helper lemmas -/

/-- The fallback step of `getBook` never leaves `locations` empty. -/
theorem locationsOf_ne_nil (acq : Element) : locationsOf acq ≠ [] := by
  simp only [locationsOf]
  split
  · simp
  · intro hnil
    simp [hnil] at *

/-- The length of the computed `locations` is never zero. -/
theorem locationsOf_length_ne_zero (acq : Element) :
    (locationsOf acq).length ≠ 0 := by
  simpa [List.length_eq_zero] using locationsOf_ne_nil acq

/-- A `getBook` attempt recurses exactly when the trimmed title is empty. -/
theorem getBookAttempt_eq_none_iff (p : ItemPage) :
    getBookAttempt p = none ↔ jsTrim p.rawTitle = "" := by
  have hl := locationsOf_length_ne_zero (acquisitionOf p)
  by_cases ht : jsTrim p.rawTitle = ""
  · simp [getBookAttempt, ht]
  · simp [getBookAttempt, ht, hl]

/-- What a successful `getBook` attempt returns: the trimmed title (shown
non-empty) and the computed locations. -/
theorem getBookAttempt_eq_some (p : ItemPage) (b : Book)
    (h : getBookAttempt p = some b) :
    b.title = jsTrim p.rawTitle ∧ b.locations = locationsOf (acquisitionOf p)
      ∧ jsTrim p.rawTitle ≠ "" := by
  have hl := locationsOf_length_ne_zero (acquisitionOf p)
  by_cases ht : jsTrim p.rawTitle = ""
  · simp [getBookAttempt, ht, hl] at h
  · simp [getBookAttempt, ht, hl] at h
    simp [← h, ht]

/-! ## Claim C10 -/

/-- C10: the fallback step makes `locations` non-empty before the validity
check, so the `locations.length == 0` disjunct of the retry condition is
unreachable; an attempt retries exactly when the trimmed page title is empty;
and a Book whose single location is the empty string is returned when the
acquisition block has no text but the title is non-empty. -/
theorem c10_retry_iff_title_empty :
    (∀ acq : Element, (locationsOf acq).length ≠ 0)
  ∧ (∀ p : ItemPage, getBookAttempt p = none ↔ jsTrim p.rawTitle = "")
  ∧ getBookAttempt { rawTitle := "A", siblings := [emptyElement] }
      = some { title := "A", locations := [""] } :=
  ⟨locationsOf_length_ne_zero, getBookAttempt_eq_none_iff, by decide⟩

/-! ## Claim C1 -/

/-- C1 as stated fails: `getBook` can return a Book one of whose locations is
the empty string (page with non-empty title whose acquisition block has no
text), so "every element of `locations` is non-empty text" does not hold. -/
theorem c1_counterexample :
    getBook (fun _ => FetchResult.ok { rawTitle := "A", siblings := [emptyElement] }) 1
      = some (BookOutcome.returned { title := "A", locations := [""] })
  ∧ ¬(∀ l ∈ ({ title := "A", locations := [""] } : Book).locations, l ≠ "") := by
  constructor
  · decide
  · decide

/-- C1 amended: every Book returned by `getBook` has a non-empty title and a
`locations` sequence with at least one element (whose elements may however be
empty text). -/
theorem c1_returned_book_valid (attempts : Nat → FetchResult) (fuel : Nat)
    (b : Book) (h : getBook attempts fuel = some (BookOutcome.returned b)) :
    b.title ≠ "" ∧ 1 ≤ b.locations.length := by
  induction fuel generalizing attempts with
  | zero => simp [getBook] at h
  | succ n ih =>
    rw [getBook] at h
    split at h
    · simp at h
    · rename_i p hp
      split at h
      · rename_i b' hb'
        obtain ⟨ht, hloc, hne⟩ := getBookAttempt_eq_some p b' hb'
        have hb : b' = b := by simpa using h
        subst hb
        refine ⟨by rw [ht]; exact hne, ?_⟩
        rw [hloc]
        have := locationsOf_length_ne_zero (acquisitionOf p)
        omega
      · exact ih _ h

/-- Witness for the amended C1 at a concrete run of `getBook`. -/
theorem c1_returned_book_valid_witness :
    ({ title := "A", locations := [""] } : Book).title ≠ ""
      ∧ 1 ≤ ({ title := "A", locations := [""] } : Book).locations.length :=
  c1_returned_book_valid
    (fun _ => FetchResult.ok { rawTitle := "A", siblings := [emptyElement] }) 1
    { title := "A", locations := [""] } (by decide)

/-! ## Claim C2 -/

/-- C2 as stated fails: a transport error is not treated like an empty
extraction result. On a stream whose first fetch rejects, `getBook` surfaces
the error to its caller, while on a stream whose first fetch resolves with an
empty title it restarts and returns the second attempt's Book. -/
theorem c2_counterexample :
    getBook (fun _ => FetchResult.err) 2 = some BookOutcome.raised
  ∧ getBook (fun n =>
        if n == 0 then FetchResult.ok { rawTitle := " ", siblings := [] }
        else FetchResult.ok { rawTitle := "B", siblings := [emptyElement] }) 2
      = some (BookOutcome.returned { title := "B", locations := [""] }) := by
  constructor
  · decide
  · decide

/-- C2 amended: when every fetch attempt resolves, `getBook` never surfaces
an error; a resolving attempt whose extraction is invalid triggers a restart
of the extraction for the same URL; but an attempt whose fetch rejects makes
`getBook` propagate the error to its caller. -/
theorem c2_error_handling (attempts : Nat → FetchResult) (fuel : Nat) :
    ((∀ n, attempts n ≠ FetchResult.err) →
        getBook attempts fuel ≠ some BookOutcome.raised)
  ∧ (∀ p, attempts 0 = FetchResult.ok p → getBookAttempt p = none →
        getBook attempts (fuel + 1) = getBook (fun n => attempts (n + 1)) fuel)
  ∧ (attempts 0 = FetchResult.err →
        getBook attempts (fuel + 1) = some BookOutcome.raised) := by
  refine ⟨?_, ?_, ?_⟩
  · intro hok
    induction fuel generalizing attempts with
    | zero => simp [getBook]
    | succ n ih =>
      rw [getBook]
      split
      · rename_i hf
        exact absurd hf (hok 0)
      · split
        · simp
        · exact ih _ (fun n => hok (n + 1))
  · intro p hf ha
    rw [getBook, hf]
    simp [ha]
  · intro hf
    rw [getBook, hf]

/-- Witness for the amended C2 at a concrete stream and fuel. -/
theorem c2_error_handling_witness :
    getBook (fun _ => FetchResult.ok { rawTitle := "B", siblings := [emptyElement] }) 1
      ≠ some BookOutcome.raised :=
  (c2_error_handling
    (fun _ => FetchResult.ok { rawTitle := "B", siblings := [emptyElement] }) 1).1
    (fun _ h => FetchResult.noConfusion h)

/-! ## Claim C3 -/

/-- C3: when the acquisition block has list-item children, the returned
locations are their trimmed texts in document order; when it has none, the
returned locations are the singleton of the block's trimmed whole text. -/
theorem c3_locations_from_block (p : ItemPage) (b : Book)
    (h : getBookAttempt p = some b) :
    ((acquisitionOf p).liTexts ≠ [] →
        b.locations = (acquisitionOf p).liTexts.map jsTrim)
  ∧ ((acquisitionOf p).liTexts = [] →
        b.locations = [jsTrim (acquisitionOf p).text]) := by
  obtain ⟨-, hloc, -⟩ := getBookAttempt_eq_some p b h
  constructor
  · intro hli
    rw [hloc]
    simp [locationsOf, hli]
  · intro hli
    rw [hloc]
    simp [locationsOf, hli]

/-- Witness for C3: one page whose block has two list items, one page whose
block has none. -/
theorem c3_locations_from_block_witness :
    (({ title := "A", locations := ["x", "y"] } : Book).locations
        = ({ liTexts := ["x ", " y"], text := "t" } : Element).liTexts.map jsTrim)
  ∧ (({ title := "A", locations := ["loc"] } : Book).locations
        = [jsTrim ({ liTexts := [], text := " loc " } : Element).text]) :=
  ⟨(c3_locations_from_block
      { rawTitle := "A", siblings := [{ liTexts := ["x ", " y"], text := "t" }] }
      { title := "A", locations := ["x", "y"] } (by decide)).1 (by decide),
   (c3_locations_from_block
      { rawTitle := "A", siblings := [{ liTexts := [], text := " loc " }] }
      { title := "A", locations := ["loc"] } (by decide)).2 (by decide)⟩

/-! ## Claim C4 -/

/-- C4: exactly for the hard-coded title "Treasure Map XXI" the acquisition
block is the second sibling after the first `h2` (one further than the
immediately next element); for every other title it is the first. -/
theorem c4_special_case (p : ItemPage) (b : Book)
    (h : getBookAttempt p = some b) :
    (b.title = "Treasure Map XXI" →
        b.locations = locationsOf ((p.siblings[1]?).getD emptyElement))
  ∧ (b.title ≠ "Treasure Map XXI" →
        b.locations = locationsOf ((p.siblings[0]?).getD emptyElement)) := by
  obtain ⟨ht, hloc, -⟩ := getBookAttempt_eq_some p b h
  constructor
  · intro hsp
    rw [hloc]
    have : jsTrim p.rawTitle = "Treasure Map XXI" := by rw [← ht]; exact hsp
    simp [acquisitionOf, this]
  · intro hsp
    rw [hloc]
    have : jsTrim p.rawTitle ≠ "Treasure Map XXI" := by rw [← ht]; exact hsp
    simp [acquisitionOf, this]

/-- Witness for C4: a special-case page whose first sibling is a decoy (its
locations come from the second sibling), and an ordinary page (its locations
come from the first sibling). -/
theorem c4_special_case_witness :
    (({ title := "Treasure Map XXI", locations := ["real"] } : Book).locations
        = locationsOf ((([{ liTexts := [], text := "decoy" },
            { liTexts := [], text := "real" }] : List Element)[1]?).getD emptyElement))
  ∧ (({ title := "B", locations := ["first"] } : Book).locations
        = locationsOf ((([{ liTexts := [], text := "first" },
            { liTexts := [], text := "second" }] : List Element)[0]?).getD emptyElement)) :=
  ⟨(c4_special_case
      { rawTitle := "Treasure Map XXI",
        siblings := [{ liTexts := [], text := "decoy" }, { liTexts := [], text := "real" }] }
      { title := "Treasure Map XXI", locations := ["real"] } (by decide)).1 (by decide),
   (c4_special_case
      { rawTitle := "B",
        siblings := [{ liTexts := [], text := "first" }, { liTexts := [], text := "second" }] }
      { title := "B", locations := ["first"] } (by decide)).2 (by decide)⟩

/-! ## Claim C5 -/

/-- C5: every href in any collected link set (shelf shape, table shape of the
first two floors, table shape of the third floor) starts with "/wiki/" and
contains no "."; hence no href containing a "." ever appears in any of them. -/
theorem c5_filter_rule (href : String) (ol : List (List String))
    (anchors : List String) :
    (href ∈ getBookshelfLinks ol ∨ href ∈ tableLinks anchors
        ∨ href ∈ thirdFloorTableLinks anchors) →
      strStartsWith href "/wiki/" = true ∧ strIncludes href "." = false := by
  intro hmem
  have hacc : acceptHref href = true ∨ acceptHrefThird href = true := by
    rcases hmem with h | h | h
    · left
      simp only [getBookshelfLinks, List.mem_flatten, List.mem_map] at h
      obtain ⟨l, ⟨li, -, rfl⟩, hk⟩ := h
      exact (List.mem_filter.mp hk).2
    · exact Or.inl (List.mem_filter.mp h).2
    · exact Or.inr (List.mem_filter.mp h).2
  rcases hacc with h | h
  · simp only [acceptHref, Bool.and_eq_true, Bool.not_eq_true'] at h
    exact h
  · simp only [acceptHrefThird, Bool.and_eq_true, Bool.not_eq_true'] at h
    exact ⟨h.1.1, h.1.2⟩

/-- Witness for C5 on concrete collections of all three shapes. -/
theorem c5_filter_rule_witness :
    strStartsWith "/wiki/Argonian_Account" "/wiki/" = true
      ∧ strIncludes "/wiki/Argonian_Account" "." = false :=
  c5_filter_rule "/wiki/Argonian_Account"
    [["/wiki/Argonian_Account", "/wiki/File:Map.png"]] ["/w/other"]
    (Or.inl (by decide))

/-! ## Claim C6 -/

/-- C6: the excluded article "/wiki/Treasure_Hunter" never appears in the
link set collected from the third floor's table, even when an anchor to it is
present among the table's anchors. -/
theorem c6_treasure_hunter_excluded (anchors : List String)
    (h : "/wiki/Treasure_Hunter" ∈ anchors) :
    "/wiki/Treasure_Hunter" ∉ thirdFloorTableLinks anchors := by
  intro hmem
  have hacc := (List.mem_filter.mp hmem).2
  have : acceptHrefThird "/wiki/Treasure_Hunter" = false := by decide
  rw [this] at hacc
  exact Bool.false_ne_true hacc

/-- Witness for C6 on a concrete table containing the excluded anchor. -/
theorem c6_treasure_hunter_excluded_witness :
    "/wiki/Treasure_Hunter"
      ∉ thirdFloorTableLinks ["/wiki/Treasure_Hunter", "/wiki/Argonian_Account"] :=
  c6_treasure_hunter_excluded ["/wiki/Treasure_Hunter", "/wiki/Argonian_Account"]
    (by decide)

/-! ## Claim C9 -/

/-- C9: a list-shaped page and a table-shaped page whose candidate anchors
form equivalent sets yield, up to order, the same collection of accepted
links: both shapes apply the same filter to every anchor. -/
theorem c9_shapes_agree (ol : List (List String)) (anchors : List String)
    (h : ol.flatten.Perm anchors) :
    (getBookshelfLinks ol).Perm (tableLinks anchors) := by
  have hshelf : getBookshelfLinks ol = ol.flatten.filter acceptHref := by
    simp only [getBookshelfLinks]
    induction ol with
    | nil => rfl
    | cons hd tl ih => simp [ih, List.filter_append]
  rw [hshelf]
  exact h.filter acceptHref

/-- Witness for C9 on a shelf and a table listing the same three anchors in a
different order. -/
theorem c9_shapes_agree_witness :
    (getBookshelfLinks [["/wiki/A", "/w/x"], ["/wiki/B"]]).Perm
      (tableLinks ["/wiki/B", "/wiki/A", "/w/x"]) :=
  c9_shapes_agree [["/wiki/A", "/w/x"], ["/wiki/B"]]
    ["/wiki/B", "/wiki/A", "/w/x"] (by decide)

/-! ## Claims C8 and C7 -/

/-- A first-floor attempt extracts one Book per accepted link, in link order. -/
theorem firstFloorBooks_eq (getB : String → Book) (seed : SeedPage) :
    firstFloorBooks getB seed
      = (firstFloorLinks seed).map (fun href => getB (HOMEPAGE ++ href)) := by
  simp only [firstFloorBooks, firstFloorLinks, getBookshelf, List.map_append]
  congr 1
  induction seed.shelves.take 8 with
  | nil => rfl
  | cons hd tl ih => simp [ih, getBookshelf]

/-- A second-floor attempt extracts one Book per accepted link, in link order. -/
theorem secondFloorBooks_eq (getB : String → Book) (seed : SeedPage) :
    secondFloorBooks getB seed
      = (secondFloorLinks seed).map (fun href => getB (HOMEPAGE ++ href)) := rfl

/-- A third-floor attempt extracts one Book per accepted link, in link order. -/
theorem thirdFloorBooks_eq (getB : String → Book) (seed : SeedPage) :
    thirdFloorBooks getB seed
      = (thirdFloorLinks seed).map (fun href => getB (HOMEPAGE ++ href)) := rfl

/-- The floor retry skeleton never returns an empty Book list. -/
theorem floorRun_some_ne_nil (ab : Nat → List Book) (fuel : Nat)
    (books : List Book) (h : floorRun ab fuel = some books) : books ≠ [] := by
  induction fuel generalizing ab with
  | zero => simp [floorRun] at h
  | succ n ih =>
    rw [floorRun] at h
    split at h
    · exact ih _ h
    · rename_i hlen
      simp only [Option.some.injEq] at h
      subst h
      intro hnil
      simp [hnil] at hlen

/-- On an empty attempt, the floor retry skeleton refetches and starts over. -/
theorem floorRun_restart (ab : Nat → List Book) (fuel : Nat) (h : ab 0 = []) :
    floorRun ab (fuel + 1) = floorRun (fun n => ab (n + 1)) fuel := by
  rw [floorRun]
  simp [h]

/-- On a non-empty attempt, the floor retry skeleton returns it at once. -/
theorem floorRun_first (ab : Nat → List Book) (fuel : Nat) (h : ab 0 ≠ []) :
    floorRun ab (fuel + 1) = some (ab 0) := by
  rw [floorRun]
  simp [h]

/-- C8: each floor crawler restarts from the initial page fetch when the
combined Book list of the current attempt is empty, and consequently never
returns an empty Book list. -/
theorem c8_floors_never_empty (getB : String → Book) (seeds : Nat → SeedPage)
    (fuel : Nat) (books : List Book) :
    ((getFirstFloor getB seeds fuel = some books → books ≠ [])
      ∧ (firstFloorBooks getB (seeds 0) = [] →
          getFirstFloor getB seeds (fuel + 1)
            = getFirstFloor getB (fun n => seeds (n + 1)) fuel))
  ∧ ((getSecondFloor getB seeds fuel = some books → books ≠ [])
      ∧ (secondFloorBooks getB (seeds 0) = [] →
          getSecondFloor getB seeds (fuel + 1)
            = getSecondFloor getB (fun n => seeds (n + 1)) fuel))
  ∧ ((getThirdFloor getB seeds fuel = some books → books ≠ [])
      ∧ (thirdFloorBooks getB (seeds 0) = [] →
          getThirdFloor getB seeds (fuel + 1)
            = getThirdFloor getB (fun n => seeds (n + 1)) fuel)) :=
  ⟨⟨floorRun_some_ne_nil _ fuel books,
    fun h => floorRun_restart (fun n => firstFloorBooks getB (seeds n)) fuel h⟩,
   ⟨floorRun_some_ne_nil _ fuel books,
    fun h => floorRun_restart (fun n => secondFloorBooks getB (seeds n)) fuel h⟩,
   ⟨floorRun_some_ne_nil _ fuel books,
    fun h => floorRun_restart (fun n => thirdFloorBooks getB (seeds n)) fuel h⟩⟩

/-- Witness for C8: a concrete first-floor run with one shelf link returns a
non-empty list; a concrete second-floor run with an empty table restarts. -/
theorem c8_floors_never_empty_witness :
    ([{ title := "T", locations := ["L"] }] : List Book) ≠ [] :=
  (c8_floors_never_empty (fun _ => { title := "T", locations := ["L"] })
    (fun _ => { shelves := [[["/wiki/A"]]], tableAnchors := [] }) 1
    [{ title := "T", locations := ["L"] }]).1.1 (by decide)

/-- C7: when each floor's first fetch yields N1, N2 and N3 accepted links
(each at least one) and every extraction is valid on the first attempt (the
`getB` contract), the driver emits exactly the concatenation first floor ++
second floor ++ third floor, one Book per link in discovery order, and its
length is N1 + N2 + N3. -/
theorem c7_pipeline_order (getB : String → Book) (s1 s2 s3 : Nat → SeedPage)
    (fuel N1 N2 N3 : Nat)
    (h1 : (firstFloorLinks (s1 0)).length = N1) (hp1 : 0 < N1)
    (h2 : (secondFloorLinks (s2 0)).length = N2) (hp2 : 0 < N2)
    (h3 : (thirdFloorLinks (s3 0)).length = N3) (hp3 : 0 < N3) :
    mainBooks getB s1 s2 s3 (fuel + 1)
      = some ((firstFloorLinks (s1 0)).map (fun href => getB (HOMEPAGE ++ href))
          ++ (secondFloorLinks (s2 0)).map (fun href => getB (HOMEPAGE ++ href))
          ++ (thirdFloorLinks (s3 0)).map (fun href => getB (HOMEPAGE ++ href)))
  ∧ (∀ out, mainBooks getB s1 s2 s3 (fuel + 1) = some out →
      out.length = N1 + N2 + N3) := by
  have hne1 : firstFloorBooks getB (s1 0) ≠ [] := by
    rw [firstFloorBooks_eq]
    intro hnil
    rw [← List.length_eq_zero] at hnil
    rw [List.length_map, h1] at hnil
    omega
  have hne2 : secondFloorBooks getB (s2 0) ≠ [] := by
    rw [secondFloorBooks_eq]
    intro hnil
    rw [← List.length_eq_zero] at hnil
    rw [List.length_map, h2] at hnil
    omega
  have hne3 : thirdFloorBooks getB (s3 0) ≠ [] := by
    rw [thirdFloorBooks_eq]
    intro hnil
    rw [← List.length_eq_zero] at hnil
    rw [List.length_map, h3] at hnil
    omega
  have e1 : getFirstFloor getB s1 (fuel + 1) = some (firstFloorBooks getB (s1 0)) :=
    floorRun_first _ fuel hne1
  have e2 : getSecondFloor getB s2 (fuel + 1) = some (secondFloorBooks getB (s2 0)) :=
    floorRun_first _ fuel hne2
  have e3 : getThirdFloor getB s3 (fuel + 1) = some (thirdFloorBooks getB (s3 0)) :=
    floorRun_first _ fuel hne3
  have emain : mainBooks getB s1 s2 s3 (fuel + 1)
      = some ((firstFloorLinks (s1 0)).map (fun href => getB (HOMEPAGE ++ href))
          ++ (secondFloorLinks (s2 0)).map (fun href => getB (HOMEPAGE ++ href))
          ++ (thirdFloorLinks (s3 0)).map (fun href => getB (HOMEPAGE ++ href))) := by
    rw [mainBooks, e1, e2, e3, firstFloorBooks_eq, secondFloorBooks_eq,
      thirdFloorBooks_eq]
  refine ⟨emain, ?_⟩
  intro out hout
  rw [emain] at hout
  simp only [Option.some.injEq] at hout
  subst hout
  simp [h1, h2, h3]
  omega

/-- Witness for C7: three one-link seed pages produce a three-Book output in
floor order. -/
theorem c7_pipeline_order_witness :
    mainBooks (fun _ => { title := "T", locations := ["L"] })
        (fun _ => { shelves := [[["/wiki/A"]]], tableAnchors := [] })
        (fun _ => { shelves := [], tableAnchors := ["/wiki/B"] })
        (fun _ => { shelves := [], tableAnchors := ["/wiki/C"] }) 1
      = some ((firstFloorLinks { shelves := [[["/wiki/A"]]], tableAnchors := [] }).map
            (fun href => (fun _ => ({ title := "T", locations := ["L"] } : Book)) (HOMEPAGE ++ href))
          ++ (secondFloorLinks { shelves := [], tableAnchors := ["/wiki/B"] }).map
            (fun href => (fun _ => ({ title := "T", locations := ["L"] } : Book)) (HOMEPAGE ++ href))
          ++ (thirdFloorLinks { shelves := [], tableAnchors := ["/wiki/C"] }).map
            (fun href => (fun _ => ({ title := "T", locations := ["L"] } : Book)) (HOMEPAGE ++ href)))
  ∧ (∀ out, mainBooks (fun _ => { title := "T", locations := ["L"] })
        (fun _ => { shelves := [[["/wiki/A"]]], tableAnchors := [] })
        (fun _ => { shelves := [], tableAnchors := ["/wiki/B"] })
        (fun _ => { shelves := [], tableAnchors := ["/wiki/C"] }) 1 = some out →
      out.length = 1 + 1 + 1) :=
  c7_pipeline_order (fun _ => { title := "T", locations := ["L"] })
    (fun _ => { shelves := [[["/wiki/A"]]], tableAnchors := [] })
    (fun _ => { shelves := [], tableAnchors := ["/wiki/B"] })
    (fun _ => { shelves := [], tableAnchors := ["/wiki/C"] }) 0 1 1 1
    (by decide) (by decide) (by decide) (by decide) (by decide) (by decide)
